import Mathlib

/-!
Shallow embedding of the shared-library closure bundler (Go package `main`:
`processBinary`, `copyFile`, `createSymlink`, `findDynExec`,
`isDynamicExecutable`, `tryStrip`, `getLibs`, `main`).

The filesystem is an association list from path strings to entries; a trace of
the successful mutating operations and the lines printed to standard output are
carried alongside.  External tools (the `ldd` prober, the `sharun` launcher
lookup, the `strip` tool, and the `ldd.FList` dependency lister) are modelled as
an environment of pure functions.  Machine-level concerns (umask, symlink
following on read paths) are outside the claims and are modelled conservatively
as errors where they would arise.
-/

namespace Pelf

/-- ASCII lower-casing of one character: the fragment of `strings.ToLower` that
the classifier's marker strings exercise. -/
def lowerChar (c : Char) : Char :=
  if 65 ≤ c.toNat ∧ c.toNat ≤ 90 then Char.ofNat (c.toNat + 32) else c

/-- Model of `strings.ToLower` on the ASCII range. -/
def toLowerStr (s : String) : String := ⟨s.data.map lowerChar⟩

/-- ASCII whitespace, as trimmed by `strings.TrimSpace`. -/
def isSpaceChar (c : Char) : Bool := c = ' ' || c = '\t' || c = '\n' || c = '\r'

/-- Model of `strings.TrimSpace` (ASCII whitespace). -/
def trimSpace (s : String) : String :=
  ⟨((s.data.dropWhile isSpaceChar).reverse.dropWhile isSpaceChar).reverse⟩

/-- Character-list prefix test (auxiliary for the substring test). -/
def listPrefixOf : List Char → List Char → Bool
  | [], _ => true
  | _ :: _, [] => false
  | a :: as, b :: bs => a = b && listPrefixOf as bs

/-- Character-list infix test (auxiliary for the substring test). -/
def listInfixOf (pat : List Char) : List Char → Bool
  | [] => listPrefixOf pat []
  | c :: rest => listPrefixOf pat (c :: rest) || listInfixOf pat rest

/-- Model of `strings.Contains`. -/
def strContains (s pat : String) : Bool := listInfixOf pat.data s.data

/-- Split a character list on the path separator (auxiliary for
`filepath.Base`). -/
def splitSlash : List Char → List (List Char)
  | [] => [[]]
  | c :: rest =>
    match splitSlash rest with
    | [] => [[]]
    | h :: t => if c = '/' then [] :: h :: t else (c :: h) :: t

/-- Model of `filepath.Base` (also the `Name()` of a `Stat` result): the last
nonempty path component, with the Go conventions for all-slash and empty
paths. -/
def baseName (p : String) : String :=
  match ((splitSlash p.data).filter (fun l => l ≠ [])).getLast? with
  | some l => ⟨l⟩
  | none => if listPrefixOf ['/'] p.data then "/" else "."

/-- Model of `filepath.Join` on the already-clean components the program
joins. -/
def joinPath (a b : String) : String :=
  if a = "" then b else if b = "" then a else a ++ "/" ++ b

/-- A filesystem entry: a regular file (byte contents and permission mode), a
directory, or a symbolic link storing its target string. -/
inductive Entry
  | file (content : List Nat) (mode : Nat)
  | dir
  | symlink (target : String)
deriving DecidableEq, Repr

/-- The filesystem: an association list from absolute-or-relative path strings
to entries.  Earliest binding wins on lookup; updates rewrite in place. -/
abbrev FS := List (String × Entry)

/-- Path lookup. -/
def lookupFS : FS → String → Option Entry
  | [], _ => none
  | (k, v) :: rest, p => if k = p then some v else lookupFS rest p

/-- Path update: overwrite the first binding or append a fresh one. -/
def setFS : FS → String → Entry → FS
  | [], p, e => [(p, e)]
  | (k, v) :: rest, p, e => if k = p then (p, e) :: rest else (k, v) :: setFS rest p e

/-- One successful mutating filesystem operation, for the trace. -/
inductive Op
  | mkdir (path : String)
  | copy (src dst : String)
  | chmod (path : String) (mode : Nat)
  | symlink (target dst : String)
  | strip (path : String)
deriving DecidableEq, Repr

/-- Program state: the filesystem, the trace of successful mutations, and the
lines printed to standard output. -/
structure St where
  fs : FS
  ops : List Op
  stdout : List String
deriving DecidableEq, Repr

/-- Errors, mirroring the failure points of the Go functions. -/
inductive Err
  | statError (path : String)
  | notRegular (path : String)
  | mkdirError (path : String)
  | readError (path : String)
  | writeError (path : String)
  | symlinkError (path : String)
  | chmodError (path : String)
  | stripNotFound
  | stripFailed (path : String)
  | sharunNotFound
  | resolveError (path : String)
deriving DecidableEq, Repr

/-- The command-line flags (`-strip`, `-one-dir`, `-create-links`,
`-dst-dir`). -/
structure Config where
  strip : Bool
  oneDir : Bool
  createLinks : Bool
  dstDirPath : String
deriving DecidableEq, Repr

def defaultDstDir : String := "output"
def defaultSharedDir : String := "shared"
def defaultLibDir : String := "lib"
def defaultBinDir : String := "bin"

/-- The flag defaults from the `flag.Bool` / `flag.String` registrations. -/
def defaultConfig : Config :=
  { strip := false, oneDir := true, createLinks := true, dstDirPath := defaultDstDir }

/-- The external world: the `ldd` prober (`none` means the command failed to
run), the `exec.LookPath` results for `sharun` and `strip`, whether a `strip`
invocation succeeds and how it rewrites contents, and the `ldd.FList`
dependency lister. -/
structure Env where
  lddRun : String → Option String
  sharunPath : Option String
  stripPath : Option String
  stripRunOk : String → Bool
  stripFn : List Nat → List Nat
  fList : String → Except String (List String)

/-- `isDynamicExecutable`: runs the prober; a failed run classifies as static
(`false`), as does output containing either static-binary marker,
case-insensitively.  The Go function's error result is always `nil`, so only
the boolean is modelled. -/
def isDynamicExecutable (env : Env) (binaryPath : String) : Bool :=
  match env.lddRun binaryPath with
  | none => false
  | some output =>
    let outputStr := trimSpace output
    let outputLower := toLowerStr outputStr
    if strContains outputLower "not a dynamic executable"
        || strContains outputLower "not a valid dynamic program" then
      false
    else
      true

/-- `copyFile`: `os.ReadFile` then `os.WriteFile` with permission `0644`.
Writing truncates an existing regular file (keeping its mode) and creates a
missing one with mode `0644`; a directory or link at either end is an error in
the model. -/
def copyFile (st : St) (src dst : String) : St × Option Err :=
  match lookupFS st.fs src with
  | some (.file c _) =>
    match lookupFS st.fs dst with
    | some (.file _ m) =>
      ({ st with fs := setFS st.fs dst (.file c m), ops := st.ops ++ [.copy src dst] }, none)
    | none =>
      ({ st with fs := setFS st.fs dst (.file c 0o644), ops := st.ops ++ [.copy src dst] }, none)
    | some _ => (st, some (.writeError dst))
  | _ => (st, some (.readError src))

/-- `createSymlink`: `os.Symlink`, which fails if anything already exists at
the destination path and otherwise records the target string verbatim. -/
def createSymlink (st : St) (src dst : String) : St × Option Err :=
  match lookupFS st.fs dst with
  | some _ => (st, some (.symlinkError dst))
  | none =>
    ({ st with fs := setFS st.fs dst (.symlink src), ops := st.ops ++ [.symlink src dst] }, none)

/-- `findDynExec`: `exec.LookPath "sharun"`. -/
def findDynExec (env : Env) : Option String := env.sharunPath

/-- `tryStrip`: a no-op unless the `-strip` flag is set; then `strip` must be
on the search path and its run must succeed, rewriting the file contents in
place. -/
def tryStrip (cfg : Config) (env : Env) (st : St) (filePath : String) : St × Option Err :=
  if cfg.strip then
    match env.stripPath with
    | none => (st, some .stripNotFound)
    | some _ =>
      if env.stripRunOk filePath then
        match lookupFS st.fs filePath with
        | some (.file c m) =>
          ({ st with
              fs := setFS st.fs filePath (.file (env.stripFn c) m)
              ops := st.ops ++ [.strip filePath] }, none)
        | _ => (st, none)
      else (st, some (.stripFailed filePath))
  else (st, none)

/-- `os.MkdirAll`: idempotent on an existing directory, an error on an existing
non-directory, otherwise creates the directory. -/
def mkdirAll (st : St) (path : String) : St × Option Err :=
  match lookupFS st.fs path with
  | some .dir => (st, none)
  | some _ => (st, some (.mkdirError path))
  | none => ({ st with fs := setFS st.fs path .dir, ops := st.ops ++ [.mkdir path] }, none)

/-- `os.Chmod` on a regular file or directory. -/
def chmodFS (st : St) (path : String) (mode : Nat) : St × Option Err :=
  match lookupFS st.fs path with
  | some (.file c _) =>
    ({ st with fs := setFS st.fs path (.file c mode), ops := st.ops ++ [.chmod path mode] }, none)
  | some .dir => ({ st with ops := st.ops ++ [.chmod path mode] }, none)
  | _ => (st, some (.chmodError path))

/-- `getLibs`: delegates to `ldd.FList`. -/
def getLibs (env : Env) (binaryPath : String) : Except String (List String) :=
  env.fList binaryPath

/-- Sequencing with the Go early-return discipline: an error stops the chain,
keeping the state reached so far. -/
def step : St × Option Err → (St → St × Option Err) → St × Option Err
  | (st, none), f => f st
  | (st, some e), _ => (st, some e)

/-- The library loop of `processBinary`: copy each resolved library to the
shared lib directory under its base name, stripping if requested. -/
def copyLibs (cfg : Config) (env : Env) (sharedLibDir : String) : St → List String → St × Option Err
  | st, [] => (st, none)
  | st, libPath :: rest =>
    step (copyFile st libPath (joinPath sharedLibDir (baseName libPath))) fun st1 =>
    step (tryStrip cfg env st1 (joinPath sharedLibDir (baseName libPath))) fun st2 =>
    copyLibs cfg env sharedLibDir st2 rest

/-- The static branch of `processBinary` (source lines after the
`!isDynamic` test): create `bin/`, copy the binary there under its base name,
strip if requested, chmod `0755`, report.  `st` is the state after the
destination root was created. -/
def processStaticTail (cfg : Config) (env : Env) (st : St) (binaryPath name : String) :
    St × Option Err :=
  step (mkdirAll st (joinPath cfg.dstDirPath defaultBinDir)) fun st2 =>
  step (copyFile st2 binaryPath (joinPath (joinPath cfg.dstDirPath defaultBinDir) name)) fun st3 =>
  step (tryStrip cfg env st3 (joinPath (joinPath cfg.dstDirPath defaultBinDir) name)) fun st4 =>
  step (chmodFS st4 (joinPath (joinPath cfg.dstDirPath defaultBinDir) name) 0o755) fun st5 =>
  ({ st5 with stdout := st5.stdout ++ ["Processed static binary: " ++ name] }, none)

/-- The dynamic branch of `processBinary` after the launcher was located at
`dynexecPath`: copy the launcher to the output root and chmod it `0755`, create
`bin/` and the symlink (when `-create-links` is set), create `shared/bin/` and
`shared/lib/`, copy the binary to `shared/bin/`, strip, then resolve and copy
the libraries.  `st` is the state after the destination root was created. -/
def processDynamicTail (cfg : Config) (env : Env) (st : St)
    (binaryPath name dynexecPath : String) : St × Option Err :=
  step (copyFile st dynexecPath (joinPath cfg.dstDirPath "sharun")) fun st2 =>
  step (chmodFS st2 (joinPath cfg.dstDirPath "sharun") 0o755) fun st3 =>
  step (mkdirAll st3 (joinPath cfg.dstDirPath defaultBinDir)) fun st4 =>
  step (if cfg.createLinks then
          createSymlink st4 "../sharun" (joinPath (joinPath cfg.dstDirPath defaultBinDir) name)
        else (st4, none)) fun st5 =>
  step (mkdirAll st5 (joinPath (joinPath cfg.dstDirPath defaultSharedDir) defaultBinDir)) fun st6 =>
  step (mkdirAll st6 (joinPath (joinPath cfg.dstDirPath defaultSharedDir) defaultLibDir)) fun st7 =>
  step (copyFile st7 binaryPath
          (joinPath (joinPath (joinPath cfg.dstDirPath defaultSharedDir) defaultBinDir) name))
    fun st8 =>
  step (tryStrip cfg env st8
          (joinPath (joinPath (joinPath cfg.dstDirPath defaultSharedDir) defaultBinDir) name))
    fun st9 =>
  match getLibs env binaryPath with
  | .error _ => (st9, some (.resolveError binaryPath))
  | .ok libPaths =>
    step (copyLibs cfg env (joinPath (joinPath cfg.dstDirPath defaultSharedDir) defaultLibDir)
            st9 libPaths) fun st10 =>
    ({ st10 with stdout := st10.stdout ++ ["Processed dynamic binary: " ++ name] }, none)

/-- `processBinary`, following the Go control flow: stat and regular-file
check, classification, destination root creation, then the static or dynamic
branch (the latter only after the launcher is found on the search path). -/
def processBinary (cfg : Config) (env : Env) (st : St) (binaryPath : String) : St × Option Err :=
  match lookupFS st.fs binaryPath with
  | none => (st, some (.statError binaryPath))
  | some .dir => (st, some (.notRegular binaryPath))
  | some (.symlink _) => (st, some (.notRegular binaryPath))
  | some (.file _ _) =>
    step (mkdirAll st cfg.dstDirPath) fun st1 =>
    if !isDynamicExecutable env binaryPath then
      processStaticTail cfg env st1 binaryPath (baseName binaryPath)
    else
      match findDynExec env with
      | none => (st1, some .sharunNotFound)
      | some dynexecPath =>
        processDynamicTail cfg env st1 binaryPath (baseName binaryPath) dynexecPath

/-- The batch loop of `main`: process each input in order, logging each error
and continuing. -/
def runBatch (cfg : Config) (env : Env) : St → List String → St × List (String × Err)
  | st, [] => (st, [])
  | st, binary :: rest =>
    match processBinary cfg env st binary with
    | (st1, none) => runBatch cfg env st1 rest
    | (st1, some e) =>
      let r := runBatch cfg env st1 rest
      (r.1, (binary, e) :: r.2)

/-- Outcome of `main`: the final state, the process exit code, and the
per-binary errors written to the log stream. -/
structure MainResult where
  st : St
  exitCode : Nat
  errorsLogged : List (String × Err)
deriving DecidableEq, Repr

/-- `main`: with no positional arguments, print the usage error and exit 1;
otherwise apply the one-dir default for an empty destination, run the batch,
and return normally (exit status 0) whatever the per-binary outcomes. -/
def runMain (cfg : Config) (env : Env) (st : St) (args : List String) : MainResult :=
  match args with
  | [] =>
    { st := { st with stdout := st.stdout ++ ["Error: Specify the ELF binary executable!"] }
      exitCode := 1
      errorsLogged := [] }
  | _ :: _ =>
    let effCfg :=
      if cfg.oneDir && cfg.dstDirPath = "" then { cfg with dstDirPath := defaultDstDir } else cfg
    let r := runBatch effCfg env st args
    { st := r.1, exitCode := 0, errorsLogged := r.2 }

/-- Number of bindings in the filesystem lying in directory `dir` (proper
prefix `dir ++ "/"`) whose base name is `base`. -/
def countInDirWithBase (fs : FS) (dir base : String) : Nat :=
  (fs.filter (fun kv => listPrefixOf (dir ++ "/").data kv.1.data && baseName kv.1 = base)).length

/-- Number of launcher-copy operations in a trace: copies whose destination is
`dst`. -/
def countCopiesTo (ops : List Op) (dst : String) : Nat :=
  (ops.filter (fun op => match op with | .copy _ d => d = dst | _ => false)).length

/-- An entry slot on which `os.MkdirAll` succeeds: absent or already a
directory. -/
def dirOkB (o : Option Entry) : Bool :=
  match o with
  | none => true
  | some .dir => true
  | _ => false

/-- An entry slot on which `os.WriteFile` succeeds: absent or a regular
file. -/
def writableB (o : Option Entry) : Bool :=
  match o with
  | none => true
  | some (.file _ _) => true
  | _ => false

/-! Lemmas about the filesystem primitives. -/

theorem lookupFS_setFS_self (fs : FS) (p : String) (e : Entry) :
    lookupFS (setFS fs p e) p = some e := by
  induction fs with
  | nil => simp [setFS, lookupFS]
  | cons kv rest ih =>
    by_cases h : kv.1 = p
    · simp [setFS, lookupFS, h]
    · simp [setFS, lookupFS, h, ih]

theorem lookupFS_setFS_ne (fs : FS) (p q : String) (e : Entry) (h : q ≠ p) :
    lookupFS (setFS fs p e) q = lookupFS fs q := by
  induction fs with
  | nil => simp [setFS, lookupFS, Ne.symm h]
  | cons kv rest ih =>
    by_cases h2 : kv.1 = p
    · simp [setFS, lookupFS, h2, Ne.symm h]
    · simp [setFS, lookupFS, h2, ih]

theorem mem_of_getLastQ {α : Type} {l : List α} {a : α} (h : l.getLast? = some a) : a ∈ l := by
  induction l with
  | nil => simp [List.getLast?] at h
  | cons b rest ih =>
    cases rest with
    | nil =>
      simp [List.getLast?] at h
      simp [h]
    | cons c t =>
      rw [List.getLast?_cons_cons] at h
      exact List.mem_cons_of_mem b (ih h)

/-- The base name of a path is never the empty string. -/
theorem baseName_ne_empty (p : String) : baseName p ≠ "" := by
  unfold baseName
  cases hgl : ((splitSlash p.data).filter (fun l => l ≠ [])).getLast? with
  | none =>
    simp only [hgl]
    split <;> decide
  | some l =>
    simp only [hgl]
    have hmem := mem_of_getLastQ hgl
    have hne : l ≠ [] := by
      have := List.of_mem_filter hmem
      simpa using this
    intro hc
    apply hne
    have h2 : (String.mk l).data = ("" : String).data := congrArg String.data hc
    simpa using h2

theorem joinPath_eq (a b : String) (ha : a ≠ "") (hb : b ≠ "") :
    joinPath a b = a ++ "/" ++ b := by
  simp [joinPath, ha, hb]

theorem step_ok {x : St × Option Err} (f : St → St × Option Err) (h : x.2 = none) :
    step x f = f x.1 := by
  rcases x with ⟨s, e⟩
  cases e with
  | none => rfl
  | some err => simp at h

/-- Specification of a successful `mkdirAll`: no error, the path is a
directory afterwards, all other paths are untouched, nothing printed, and no
chmod operation is added. -/
theorem mkdirAll_ok {st : St} {p : String} (h : dirOkB (lookupFS st.fs p) = true) :
    (mkdirAll st p).2 = none ∧
    lookupFS (mkdirAll st p).1.fs p = some Entry.dir ∧
    (∀ q, q ≠ p → lookupFS (mkdirAll st p).1.fs q = lookupFS st.fs q) ∧
    (mkdirAll st p).1.stdout = st.stdout ∧
    (∀ a b, Op.chmod a b ∈ (mkdirAll st p).1.ops → Op.chmod a b ∈ st.ops) := by
  cases he : lookupFS st.fs p with
  | none =>
    refine ⟨by simp [mkdirAll, he], by simp [mkdirAll, he, lookupFS_setFS_self], ?_, ?_, ?_⟩
    · intro q hq
      simp [mkdirAll, he, lookupFS_setFS_ne _ _ _ _ hq]
    · simp [mkdirAll, he]
    · intro a b hab
      simp [mkdirAll, he] at hab
      exact hab
  | some e =>
    cases e with
    | dir =>
      have heq : mkdirAll st p = (st, none) := by simp [mkdirAll, he]
      rw [heq]
      exact ⟨rfl, he, fun q _ => rfl, rfl, fun a b hab => hab⟩
    | file c m => rw [he] at h; simp [dirOkB] at h
    | symlink t => rw [he] at h; simp [dirOkB] at h

/-- Specification of a successful `copyFile` onto a writable slot: no error,
the destination holds the source contents afterwards (with some mode), all
other paths are untouched, nothing printed, and exactly one copy operation is
appended. -/
theorem copyFile_ok {st : St} {src dst : String} {c : List Nat} {m : Nat}
    (hsrc : lookupFS st.fs src = some (.file c m))
    (hdst : writableB (lookupFS st.fs dst) = true) :
    (copyFile st src dst).2 = none ∧
    (∃ m2, lookupFS (copyFile st src dst).1.fs dst = some (.file c m2)) ∧
    (∀ q, q ≠ dst → lookupFS (copyFile st src dst).1.fs q = lookupFS st.fs q) ∧
    (copyFile st src dst).1.stdout = st.stdout ∧
    (copyFile st src dst).1.ops = st.ops ++ [Op.copy src dst] := by
  cases he : lookupFS st.fs dst with
  | none =>
    refine ⟨by simp [copyFile, hsrc, he], ⟨0o644, by simp [copyFile, hsrc, he, lookupFS_setFS_self]⟩,
      ?_, by simp [copyFile, hsrc, he], by simp [copyFile, hsrc, he]⟩
    intro q hq
    simp [copyFile, hsrc, he, lookupFS_setFS_ne _ _ _ _ hq]
  | some e =>
    cases e with
    | file c0 m0 =>
      refine ⟨by simp [copyFile, hsrc, he], ⟨m0, by simp [copyFile, hsrc, he, lookupFS_setFS_self]⟩,
        ?_, by simp [copyFile, hsrc, he], by simp [copyFile, hsrc, he]⟩
      intro q hq
      simp [copyFile, hsrc, he, lookupFS_setFS_ne _ _ _ _ hq]
    | dir => rw [he] at hdst; simp [writableB] at hdst
    | symlink t => rw [he] at hdst; simp [writableB] at hdst

/-- `copyFile` onto an absent slot creates the destination with mode `0644`. -/
theorem copyFile_fresh {st : St} {src dst : String} {c : List Nat} {m : Nat}
    (hsrc : lookupFS st.fs src = some (.file c m))
    (hdst : lookupFS st.fs dst = none) :
    (copyFile st src dst).2 = none ∧
    lookupFS (copyFile st src dst).1.fs dst = some (.file c 0o644) ∧
    (∀ q, q ≠ dst → lookupFS (copyFile st src dst).1.fs q = lookupFS st.fs q) ∧
    (copyFile st src dst).1.stdout = st.stdout ∧
    (copyFile st src dst).1.ops = st.ops ++ [Op.copy src dst] := by
  refine ⟨by simp [copyFile, hsrc, hdst], by simp [copyFile, hsrc, hdst, lookupFS_setFS_self],
    ?_, by simp [copyFile, hsrc, hdst], by simp [copyFile, hsrc, hdst]⟩
  intro q hq
  simp [copyFile, hsrc, hdst, lookupFS_setFS_ne _ _ _ _ hq]

/-- With the `-strip` flag off, `tryStrip` is the identity. -/
theorem tryStrip_off {cfg : Config} {env : Env} {st : St} {x : String}
    (h : cfg.strip = false) : tryStrip cfg env st x = (st, none) := by
  simp [tryStrip, h]

/-- Specification of a successful `chmodFS` on a regular file. -/
theorem chmodFS_file {st : St} {path : String} {c : List Nat} {m0 : Nat} (m : Nat)
    (h : lookupFS st.fs path = some (.file c m0)) :
    (chmodFS st path m).2 = none ∧
    lookupFS (chmodFS st path m).1.fs path = some (.file c m) ∧
    (∀ q, q ≠ path → lookupFS (chmodFS st path m).1.fs q = lookupFS st.fs q) ∧
    (chmodFS st path m).1.stdout = st.stdout ∧
    (chmodFS st path m).1.ops = st.ops ++ [Op.chmod path m] := by
  refine ⟨by simp [chmodFS, h], by simp [chmodFS, h, lookupFS_setFS_self],
    ?_, by simp [chmodFS, h], by simp [chmodFS, h]⟩
  intro q hq
  simp [chmodFS, h, lookupFS_setFS_ne _ _ _ _ hq]

/-- `createSymlink` on an absent destination succeeds and records the link. -/
theorem createSymlink_fresh {st : St} {src dst : String}
    (h : lookupFS st.fs dst = none) :
    (createSymlink st src dst).2 = none ∧
    lookupFS (createSymlink st src dst).1.fs dst = some (.symlink src) ∧
    (∀ q, q ≠ dst → lookupFS (createSymlink st src dst).1.fs q = lookupFS st.fs q) ∧
    (createSymlink st src dst).1.stdout = st.stdout ∧
    (createSymlink st src dst).1.ops = st.ops ++ [Op.symlink src dst] := by
  refine ⟨by simp [createSymlink, h], by simp [createSymlink, h, lookupFS_setFS_self],
    ?_, by simp [createSymlink, h], by simp [createSymlink, h]⟩
  intro q hq
  simp [createSymlink, h, lookupFS_setFS_ne _ _ _ _ hq]

/-- `createSymlink` on an occupied destination fails and changes nothing. -/
theorem createSymlink_existing {st : St} {src dst : String} {e : Entry}
    (h : lookupFS st.fs dst = some e) :
    createSymlink st src dst = (st, some (.symlinkError dst)) := by
  simp [createSymlink, h]

theorem step_err {s : St} {e : Err} (f : St → St × Option Err) :
    step (s, some e) f = (s, some e) := rfl

/-- Specification of the static branch: with the flag defaults for paths and
no stripping, a regular file at `p`, a usable `bin/` slot and a writable
target, the branch succeeds and leaves the source bytes at
`output/bin/<base>` with mode `0755`. -/
theorem processStaticTail_ok (cfg : Config) (env : Env) (st : St) (p : String)
    (c : List Nat) (m : Nat)
    (hstrip : cfg.strip = false)
    (hdst : cfg.dstDirPath = defaultDstDir)
    (hreg : lookupFS st.fs p = some (.file c m))
    (hbin : dirOkB (lookupFS st.fs "output/bin") = true)
    (htgt : writableB (lookupFS st.fs ("output/bin" ++ "/" ++ baseName p)) = true) :
    (processStaticTail cfg env st p (baseName p)).2 = none ∧
    lookupFS (processStaticTail cfg env st p (baseName p)).1.fs
      ("output/bin" ++ "/" ++ baseName p) = some (.file c 0o755) := by
  have hn := baseName_ne_empty p
  have ebin : joinPath cfg.dstDirPath defaultBinDir = "output/bin" := by rw [hdst]; decide
  have etgt : joinPath (joinPath cfg.dstDirPath defaultBinDir) (baseName p)
      = "output/bin" ++ "/" ++ baseName p := by
    rw [ebin]; exact joinPath_eq _ _ (by decide) hn
  have dTB : ("output/bin" ++ "/" ++ baseName p) ≠ "output/bin" := of_decide_eq_true rfl
  have dPB : p ≠ "output/bin" := by
    intro h
    rw [h] at hreg
    rw [hreg] at hbin
    simp [dirOkB] at hbin
  unfold processStaticTail
  rw [etgt, ebin]
  obtain ⟨m1e, m1l, m1p, m1s, m1o⟩ := @mkdirAll_ok st "output/bin" hbin
  rw [step_ok _ m1e]
  have hregA : lookupFS (mkdirAll st "output/bin").1.fs p = some (.file c m) := by
    rw [m1p p dPB]; exact hreg
  have htgtA : writableB (lookupFS (mkdirAll st "output/bin").1.fs
      ("output/bin" ++ "/" ++ baseName p)) = true := by
    rw [m1p _ dTB]; exact htgt
  obtain ⟨c2e, ⟨m2, c2l⟩, c2p, c2s, c2o⟩ := copyFile_ok hregA htgtA
  rw [step_ok _ c2e]
  rw [tryStrip_off hstrip]
  rw [step_ok _ rfl]
  obtain ⟨h3e, h3l, h3p, h3s, h3o⟩ := chmodFS_file 0o755 c2l
  rw [step_ok _ h3e]
  exact ⟨rfl, by simpa using h3l⟩

/-- Specification of `processBinary` on a statically-classified regular file:
success, with the source bytes installed at `output/bin/<base>` under mode
`0755`. -/
theorem processBinary_static_ok (cfg : Config) (env : Env) (st : St) (p : String)
    (c : List Nat) (m : Nat)
    (hstrip : cfg.strip = false)
    (hdst : cfg.dstDirPath = defaultDstDir)
    (hreg : lookupFS st.fs p = some (.file c m))
    (hclass : isDynamicExecutable env p = false)
    (hroot : dirOkB (lookupFS st.fs "output") = true)
    (hbin : dirOkB (lookupFS st.fs "output/bin") = true)
    (htgt : writableB (lookupFS st.fs ("output/bin" ++ "/" ++ baseName p)) = true) :
    (processBinary cfg env st p).2 = none ∧
    lookupFS (processBinary cfg env st p).1.fs
      ("output/bin" ++ "/" ++ baseName p) = some (.file c 0o755) := by
  have dPR : p ≠ "output" := by
    intro h; rw [h] at hreg; rw [hreg] at hroot; simp [dirOkB] at hroot
  have dBR : ("output/bin" : String) ≠ "output" := by decide
  have dTR : ("output/bin" ++ "/" ++ baseName p) ≠ "output" := of_decide_eq_true rfl
  unfold processBinary
  rw [hreg]
  simp only [hdst, show (defaultDstDir : String) = "output" from rfl]
  obtain ⟨m1e, m1l, m1p, m1s, m1o⟩ := @mkdirAll_ok st "output" hroot
  rw [step_ok _ m1e]
  rw [hclass]
  simp only [Bool.not_false, if_true]
  exact processStaticTail_ok cfg env (mkdirAll st "output").1 p c m hstrip hdst
    (by rw [m1p p dPR]; exact hreg)
    (by rw [m1p _ dBR]; exact hbin)
    (by rw [m1p _ dTR]; exact htgt)



theorem copyFile_lookup_other (st : St) (src dst q : String) (hq : q ≠ dst) :
    lookupFS (copyFile st src dst).1.fs q = lookupFS st.fs q := by
  unfold copyFile
  split
  · split
    · simp [lookupFS_setFS_ne _ _ _ _ hq]
    · simp [lookupFS_setFS_ne _ _ _ _ hq]
    · rfl
  · rfl

theorem copyFile_ops_chmod (st : St) (src dst : String) (a : String) (b : Nat)
    (h : Op.chmod a b ∈ (copyFile st src dst).1.ops) : Op.chmod a b ∈ st.ops := by
  unfold copyFile at h
  revert h
  split
  · split
    · intro h; simpa using h
    · intro h; simpa using h
    · exact id
  · exact id

theorem tryStrip_lookup_other (cfg : Config) (env : Env) (st : St) (x q : String)
    (hq : q ≠ x) : lookupFS (tryStrip cfg env st x).1.fs q = lookupFS st.fs q := by
  unfold tryStrip
  split
  · split
    · rfl
    · split
      · split
        · simp [lookupFS_setFS_ne _ _ _ _ hq]
        · rfl
      · rfl
  · rfl

theorem tryStrip_ops_chmod (cfg : Config) (env : Env) (st : St) (x : String)
    (a : String) (b : Nat)
    (h : Op.chmod a b ∈ (tryStrip cfg env st x).1.ops) : Op.chmod a b ∈ st.ops := by
  unfold tryStrip at h
  revert h
  split
  · split
    · exact id
    · split
      · split
        · intro h; simpa using h
        · exact id
      · exact id
  · exact id

theorem copyLibs_preserve (cfg : Config) (env : Env) (sld : String) (libs : List String)
    (st : St) (q : String) (hq : ∀ y : String, q ≠ joinPath sld y) :
    lookupFS (copyLibs cfg env sld st libs).1.fs q = lookupFS st.fs q ∧
    (∀ a b, Op.chmod a b ∈ (copyLibs cfg env sld st libs).1.ops → Op.chmod a b ∈ st.ops) := by
  induction libs generalizing st with
  | nil => exact ⟨rfl, fun a b h => h⟩
  | cons lib rest ih =>
    have hq1 : q ≠ joinPath sld (baseName lib) := hq _
    unfold copyLibs
    rcases h1 : copyFile st lib (joinPath sld (baseName lib)) with ⟨st1, e1⟩
    have hst1 : st1 = (copyFile st lib (joinPath sld (baseName lib))).1 := by rw [h1]
    cases e1 with
    | some err =>
      rw [step_err]
      refine ⟨?_, ?_⟩
      · rw [hst1]; exact copyFile_lookup_other _ _ _ _ hq1
      · intro a b hb; rw [hst1] at hb; exact copyFile_ops_chmod _ _ _ _ _ hb
    | none =>
      rw [step_ok _ rfl]
      rcases h2 : tryStrip cfg env st1 (joinPath sld (baseName lib)) with ⟨st2, e2⟩
      have hst2 : st2 = (tryStrip cfg env st1 (joinPath sld (baseName lib))).1 := by rw [h2]
      cases e2 with
      | some err =>
        rw [step_err]
        refine ⟨?_, ?_⟩
        · rw [hst2, tryStrip_lookup_other _ _ _ _ _ hq1, hst1]
          exact copyFile_lookup_other _ _ _ _ hq1
        · intro a b hb
          rw [hst2] at hb
          have := tryStrip_ops_chmod _ _ _ _ _ _ hb
          rw [hst1] at this
          exact copyFile_ops_chmod _ _ _ _ _ this
      | none =>
        rw [step_ok _ rfl]
        obtain ⟨ihl, iho⟩ := ih st2
        refine ⟨?_, ?_⟩
        · rw [ihl, hst2, tryStrip_lookup_other _ _ _ _ _ hq1, hst1]
          exact copyFile_lookup_other _ _ _ _ hq1
        · intro a b hb
          have hb2 := iho a b hb
          rw [hst2] at hb2
          have := tryStrip_ops_chmod _ _ _ _ _ _ hb2
          rw [hst1] at this
          exact copyFile_ops_chmod _ _ _ _ _ this



theorem processDynamicTail_symlinkExists (cfg : Config) (env : Env) (st : St)
    (p sp : String) (cs : List Nat) (ms : Nat) (c0 : List Nat) (m0 : Nat)
    (hdst : cfg.dstDirPath = defaultDstDir)
    (hlinks : cfg.createLinks = true)
    (hsp : lookupFS st.fs sp = some (.file cs ms))
    (hshn : writableB (lookupFS st.fs "output/sharun") = true)
    (hbin : dirOkB (lookupFS st.fs "output/bin") = true)
    (hslp : lookupFS st.fs ("output/bin" ++ "/" ++ baseName p) = some (.file c0 m0)) :
    (processDynamicTail cfg env st p (baseName p) sp).2
      = some (.symlinkError ("output/bin" ++ "/" ++ baseName p)) ∧
    lookupFS (processDynamicTail cfg env st p (baseName p) sp).1.fs
      ("output/bin" ++ "/" ++ baseName p) = some (.file c0 m0) := by
  have hn := baseName_ne_empty p
  have eshn : joinPath cfg.dstDirPath "sharun" = "output/sharun" := by rw [hdst]; decide
  have ebin : joinPath cfg.dstDirPath defaultBinDir = "output/bin" := by rw [hdst]; decide
  have eslp : joinPath (joinPath cfg.dstDirPath defaultBinDir) (baseName p)
      = "output/bin" ++ "/" ++ baseName p := by
    rw [ebin]; exact joinPath_eq _ _ (by decide) hn
  have dBS : ("output/bin" : String) ≠ "output/sharun" := by decide
  have dLS : ("output/bin" ++ "/" ++ baseName p) ≠ "output/sharun" := of_decide_eq_true rfl
  have dLB : ("output/bin" ++ "/" ++ baseName p) ≠ "output/bin" := of_decide_eq_true rfl
  unfold processDynamicTail
  rw [eslp, ebin, eshn]
  obtain ⟨c1e, ⟨m1, c1l⟩, c1p, c1s, c1o⟩ := copyFile_ok hsp hshn
  rw [step_ok _ c1e]
  obtain ⟨h2e, h2l, h2p, h2s, h2o⟩ := chmodFS_file 0o755 c1l
  rw [step_ok _ h2e]
  have hbin2 : dirOkB (lookupFS
      (chmodFS (copyFile st sp "output/sharun").1 "output/sharun" 0o755).1.fs "output/bin")
      = true := by
    rw [h2p _ dBS, c1p _ dBS]; exact hbin
  obtain ⟨m3e, m3l, m3p, m3s, m3o⟩ := mkdirAll_ok hbin2
  rw [step_ok _ m3e]
  rw [hlinks]
  simp only [if_true]
  have hslp3 : lookupFS
      (mkdirAll (chmodFS (copyFile st sp "output/sharun").1 "output/sharun" 0o755).1
        "output/bin").1.fs
      ("output/bin" ++ "/" ++ baseName p) = some (.file c0 m0) := by
    rw [m3p _ dLB, h2p _ dLS, c1p _ dLS]; exact hslp
  rw [createSymlink_existing hslp3]
  rw [step_err]
  exact ⟨rfl, hslp3⟩

theorem joinPath_empty_right (a : String) : joinPath a "" = a := by
  unfold joinPath
  by_cases h : a = "" <;> simp [h]

theorem processDynamicTail_sharedBin (cfg : Config) (env : Env) (st : St)
    (p sp : String) (c : List Nat) (m : Nat) (cs : List Nat) (ms : Nat)
    (hdst : cfg.dstDirPath = defaultDstDir)
    (hstrip : cfg.strip = false)
    (hlinks : cfg.createLinks = true)
    (hreg : lookupFS st.fs p = some (.file c m))
    (hsp : lookupFS st.fs sp = some (.file cs ms))
    (hshn : writableB (lookupFS st.fs "output/sharun") = true)
    (hpshn : p ≠ "output/sharun")
    (hbin : dirOkB (lookupFS st.fs "output/bin") = true)
    (hslp : lookupFS st.fs ("output/bin" ++ "/" ++ baseName p) = none)
    (hsbd : dirOkB (lookupFS st.fs "output/shared/bin") = true)
    (hsld : dirOkB (lookupFS st.fs "output/shared/lib") = true)
    (hsbp : lookupFS st.fs ("output/shared/bin" ++ "/" ++ baseName p) = none) :
    lookupFS (processDynamicTail cfg env st p (baseName p) sp).1.fs
      ("output/shared/bin" ++ "/" ++ baseName p) = some (.file c 0o644) ∧
    (∀ b, Op.chmod ("output/shared/bin" ++ "/" ++ baseName p) b
        ∈ (processDynamicTail cfg env st p (baseName p) sp).1.ops →
      Op.chmod ("output/shared/bin" ++ "/" ++ baseName p) b ∈ st.ops) ∧
    lookupFS (processDynamicTail cfg env st p (baseName p) sp).1.fs
      "output/sharun" = some (.file cs 0o755) := by
  have hn := baseName_ne_empty p
  have eshn : joinPath cfg.dstDirPath "sharun" = "output/sharun" := by rw [hdst]; decide
  have ebin : joinPath cfg.dstDirPath defaultBinDir = "output/bin" := by rw [hdst]; decide
  have eslp : joinPath (joinPath cfg.dstDirPath defaultBinDir) (baseName p)
      = "output/bin" ++ "/" ++ baseName p := by
    rw [ebin]; exact joinPath_eq _ _ (by decide) hn
  have esbd : joinPath (joinPath cfg.dstDirPath defaultSharedDir) defaultBinDir
      = "output/shared/bin" := by rw [hdst]; decide
  have esld : joinPath (joinPath cfg.dstDirPath defaultSharedDir) defaultLibDir
      = "output/shared/lib" := by rw [hdst]; decide
  have esbp : joinPath (joinPath (joinPath cfg.dstDirPath defaultSharedDir) defaultBinDir)
      (baseName p) = "output/shared/bin" ++ "/" ++ baseName p := by
    rw [esbd]; exact joinPath_eq _ _ (by decide) hn
  -- concrete-path disequalities
  have dBS : ("output/bin" : String) ≠ "output/sharun" := by decide
  have dSB : ("output/sharun" : String) ≠ "output/bin" := by decide
  have dSlpS : ("output/bin" ++ "/" ++ baseName p) ≠ "output/sharun" := of_decide_eq_true rfl
  have dSSlp : ("output/sharun" : String) ≠ "output/bin" ++ "/" ++ baseName p :=
    Ne.symm dSlpS
  have dSlpB : ("output/bin" ++ "/" ++ baseName p) ≠ "output/bin" := of_decide_eq_true rfl
  have dSbdS : ("output/shared/bin" : String) ≠ "output/sharun" := by decide
  have dSbdB : ("output/shared/bin" : String) ≠ "output/bin" := by decide
  have dSbdSlp : ("output/shared/bin" : String) ≠ "output/bin" ++ "/" ++ baseName p :=
    Ne.symm (of_decide_eq_true rfl)
  have dSldS : ("output/shared/lib" : String) ≠ "output/sharun" := by decide
  have dSldB : ("output/shared/lib" : String) ≠ "output/bin" := by decide
  have dSldSlp : ("output/shared/lib" : String) ≠ "output/bin" ++ "/" ++ baseName p :=
    Ne.symm (of_decide_eq_true rfl)
  have dSldSbd : ("output/shared/lib" : String) ≠ "output/shared/bin" := by decide
  have dSSbd : ("output/sharun" : String) ≠ "output/shared/bin" := by decide
  have dSSld : ("output/sharun" : String) ≠ "output/shared/lib" := by decide
  have dSbpS : ("output/shared/bin" ++ "/" ++ baseName p) ≠ "output/sharun" :=
    of_decide_eq_true rfl
  have dSSbp : ("output/sharun" : String) ≠ "output/shared/bin" ++ "/" ++ baseName p :=
    Ne.symm dSbpS
  have dSbpB : ("output/shared/bin" ++ "/" ++ baseName p) ≠ "output/bin" :=
    of_decide_eq_true rfl
  have dSbpSlp : ("output/shared/bin" ++ "/" ++ baseName p) ≠ "output/bin" ++ "/" ++ baseName p :=
    of_decide_eq_true rfl
  have dSbpSbd : ("output/shared/bin" ++ "/" ++ baseName p) ≠ "output/shared/bin" :=
    of_decide_eq_true rfl
  have dSbpSld : ("output/shared/bin" ++ "/" ++ baseName p) ≠ "output/shared/lib" :=
    of_decide_eq_true rfl
  -- disequalities for the input binary path, from entry kinds
  have dPB : p ≠ "output/bin" := by
    intro h; rw [h] at hreg; rw [hreg] at hbin; simp [dirOkB] at hbin
  have dPSlp : p ≠ "output/bin" ++ "/" ++ baseName p := by
    intro h; rw [h] at hreg; rw [hreg] at hslp; exact Option.noConfusion hslp
  have dPSbd : p ≠ "output/shared/bin" := by
    intro h; rw [h] at hreg; rw [hreg] at hsbd; simp [dirOkB] at hsbd
  have dPSld : p ≠ "output/shared/lib" := by
    intro h; rw [h] at hreg; rw [hreg] at hsld; simp [dirOkB] at hsld
  -- loop-preservation side conditions
  have hqSbp : ∀ y : String, ("output/shared/bin" ++ "/" ++ baseName p)
      ≠ joinPath "output/shared/lib" y := by
    intro y
    by_cases hy : y = ""
    · rw [hy, joinPath_empty_right]; exact dSbpSld
    · rw [joinPath_eq _ _ (by decide) hy]; exact of_decide_eq_true rfl
  have hqShn : ∀ y : String, ("output/sharun" : String) ≠ joinPath "output/shared/lib" y := by
    intro y
    by_cases hy : y = ""
    · rw [hy, joinPath_empty_right]; exact dSSld
    · rw [joinPath_eq _ _ (by decide) hy]; exact of_decide_eq_true rfl
  unfold processDynamicTail
  rw [esbp, esbd, esld, eslp, ebin, eshn]
  -- launcher copy
  obtain ⟨c1e, ⟨m1, c1l⟩, c1p, c1s, c1o⟩ := copyFile_ok hsp hshn
  rw [step_ok _ c1e]
  -- launcher chmod
  obtain ⟨h2e, h2l, h2p, h2s, h2o⟩ := chmodFS_file 0o755 c1l
  rw [step_ok _ h2e]
  set A2 := (chmodFS (copyFile st sp "output/sharun").1 "output/sharun" 0o755).1 with hA2
  -- bin dir
  have hbin2 : dirOkB (lookupFS A2.fs "output/bin") = true := by
    rw [hA2, h2p _ dBS, c1p _ dBS]; exact hbin
  obtain ⟨m3e, m3l, m3p, m3s, m3o⟩ := mkdirAll_ok hbin2
  rw [step_ok _ m3e]
  rw [hlinks]
  simp only [if_true]
  set A3 := (mkdirAll A2 "output/bin").1 with hA3
  -- symlink
  have hslp3 : lookupFS A3.fs ("output/bin" ++ "/" ++ baseName p) = none := by
    rw [hA3, m3p _ dSlpB, hA2, h2p _ dSlpS, c1p _ dSlpS]; exact hslp
  obtain ⟨s4e, s4l, s4p, s4s, s4o⟩ := createSymlink_fresh hslp3
  rw [step_ok _ s4e]
  set A4 := (createSymlink A3 "../sharun" ("output/bin" ++ "/" ++ baseName p)).1 with hA4
  -- shared/bin dir
  have hsbd4 : dirOkB (lookupFS A4.fs "output/shared/bin") = true := by
    rw [hA4, s4p _ dSbdSlp, hA3, m3p _ dSbdB, hA2, h2p _ dSbdS, c1p _ dSbdS]; exact hsbd
  obtain ⟨m5e, m5l, m5p, m5s, m5o⟩ := mkdirAll_ok hsbd4
  rw [step_ok _ m5e]
  set A5 := (mkdirAll A4 "output/shared/bin").1 with hA5
  -- shared/lib dir
  have hsld5 : dirOkB (lookupFS A5.fs "output/shared/lib") = true := by
    rw [hA5, m5p _ dSldSbd, hA4, s4p _ dSldSlp, hA3, m3p _ dSldB, hA2, h2p _ dSldS,
      c1p _ dSldS]
    exact hsld
  obtain ⟨m6e, m6l, m6p, m6s, m6o⟩ := mkdirAll_ok hsld5
  rw [step_ok _ m6e]
  set A6 := (mkdirAll A5 "output/shared/lib").1 with hA6
  -- copy the binary into shared/bin
  have hreg6 : lookupFS A6.fs p = some (.file c m) := by
    rw [hA6, m6p _ dPSld, hA5, m5p _ dPSbd, hA4, s4p _ dPSlp, hA3, m3p _ dPB, hA2,
      h2p _ hpshn, c1p _ hpshn]
    exact hreg
  have hsbp6 : lookupFS A6.fs ("output/shared/bin" ++ "/" ++ baseName p) = none := by
    rw [hA6, m6p _ dSbpSld, hA5, m5p _ dSbpSbd, hA4, s4p _ dSbpSlp, hA3, m3p _ dSbpB, hA2,
      h2p _ dSbpS, c1p _ dSbpS]
    exact hsbp
  obtain ⟨c7e, c7l, c7p, c7s, c7o⟩ := copyFile_fresh hreg6 hsbp6
  rw [step_ok _ c7e]
  rw [tryStrip_off hstrip]
  rw [step_ok _ rfl]
  set A7 := (copyFile A6 p ("output/shared/bin" ++ "/" ++ baseName p)).1 with hA7
  -- facts at A7
  have hshn7 : lookupFS A7.fs "output/sharun" = some (.file cs 0o755) := by
    rw [hA7, c7p _ dSSbp, hA6, m6p _ dSSld, hA5, m5p _ dSSbd, hA4, s4p _ dSSlp, hA3,
      m3p _ dSB]
    rw [hA2] at h2l
    exact h2l
  have opsImp : ∀ b, Op.chmod ("output/shared/bin" ++ "/" ++ baseName p) b ∈ A7.ops →
      Op.chmod ("output/shared/bin" ++ "/" ++ baseName p) b ∈ st.ops := by
    intro b hb
    rw [hA7, c7o] at hb
    simp only [List.mem_append, List.mem_singleton] at hb
    rcases hb with hb | hb
    · rw [hA6] at hb
      have hb5 := m6o _ _ hb
      rw [hA5] at hb5
      have hb4 := m5o _ _ hb5
      rw [hA4, s4o] at hb4
      simp only [List.mem_append, List.mem_singleton] at hb4
      rcases hb4 with hb4 | hb4
      · rw [hA3] at hb4
        have hb3 := m3o _ _ hb4
        rw [hA2, h2o] at hb3
        simp only [List.mem_append, List.mem_singleton] at hb3
        rcases hb3 with hb3 | hb3
        · rw [c1o] at hb3
          simp only [List.mem_append, List.mem_singleton] at hb3
          rcases hb3 with hb3 | hb3
          · exact hb3
          · exact absurd hb3 (by simp)
        · exact absurd (Op.chmod.inj hb3).1 dSbpS
      · exact absurd hb4 (by simp)
    · exact absurd hb (by simp)
  -- dependency resolution and the library loop
  split
  · exact ⟨c7l, opsImp, hshn7⟩
  · rename_i libPaths hfl
    obtain ⟨pl1, po1⟩ := copyLibs_preserve cfg env "output/shared/lib" libPaths A7
      ("output/shared/bin" ++ "/" ++ baseName p) hqSbp
    obtain ⟨pl2, _⟩ := copyLibs_preserve cfg env "output/shared/lib" libPaths A7
      "output/sharun" hqShn
    rcases hcl : copyLibs cfg env "output/shared/lib" A7 libPaths with ⟨st10, e10⟩
    have hst10 : st10 = (copyLibs cfg env "output/shared/lib" A7 libPaths).1 := by rw [hcl]
    cases e10 with
    | some err =>
      rw [step_err]
      refine ⟨?_, ?_, ?_⟩
      · rw [hst10, pl1]; exact c7l
      · intro b hb
        rw [hst10] at hb
        exact opsImp b (po1 _ _ hb)
      · rw [hst10, pl2]; exact hshn7
    | none =>
      rw [step_ok _ rfl]
      refine ⟨?_, ?_, ?_⟩
      · show lookupFS st10.fs _ = _
        rw [hst10, pl1]; exact c7l
      · intro b hb
        have hb2 : Op.chmod ("output/shared/bin" ++ "/" ++ baseName p) b ∈ st10.ops := hb
        rw [hst10] at hb2
        exact opsImp b (po1 _ _ hb2)
      · show lookupFS st10.fs _ = _
        rw [hst10, pl2]; exact hshn7

/-! Scenario fixtures: concrete environments and initial states used by the
claim theorems, with the file contents left universally quantified where a
claim is about arbitrary binaries. -/

/-- A prober report for a dynamically linked executable (contains neither
static marker). -/
def lddDynOutput : String := "libc.so.6"

/-- The glibc prober report for a statically linked executable. -/
def lddStaticOutput : String := "	not a dynamic executable"

/-- Environment for the library-deduplication scenario: two dynamic binaries
whose closures each contain one library named `libc.so.6`, from different
directories. -/
def dedupEnv : Env where
  lddRun := fun _ => some lddDynOutput
  sharunPath := some "/usr/bin/sharun"
  stripPath := none
  stripRunOk := fun _ => true
  stripFn := fun c => c
  fList := fun p =>
    if p = "/x/b1" then .ok ["/a/libc.so.6"]
    else if p = "/x/b2" then .ok ["/b/libc.so.6"]
    else .error "unresolved"

/-- Initial filesystem for the deduplication scenario: the two binaries, the
two same-named libraries with contents `c1` and `c2`, and the launcher. -/
def dedupSt (c1 c2 : List Nat) : St where
  fs := [("/x/b1", .file [10] 0o755), ("/x/b2", .file [11] 0o755),
         ("/a/libc.so.6", .file c1 0o644), ("/b/libc.so.6", .file c2 0o644),
         ("/usr/bin/sharun", .file [9] 0o755)]
  ops := []
  stdout := []

/-- An empty initial state. -/
def stEmpty : St where
  fs := []
  ops := []
  stdout := []

/-- Environment for the launcher-missing scenario: `/x/d1` is dynamic, every
other path static, and `sharun` is absent from the search path. -/
def noLauncherEnv : Env where
  lddRun := fun p => if p = "/x/d1" then some lddDynOutput else some lddStaticOutput
  sharunPath := none
  stripPath := none
  stripRunOk := fun _ => true
  stripFn := fun c => c
  fList := fun _ => .error "unresolved"

/-- Initial filesystem for the launcher-missing scenario: a dynamic binary and
a static binary. -/
def noLauncherSt (cd ca : List Nat) : St where
  fs := [("/x/d1", .file cd 0o755), ("/x/a", .file ca 0o755)]
  ops := []
  stdout := []

/-- Environment for the launcher-copy-count scenario: everything dynamic with
an empty dependency closure. -/
def twoDynEnv : Env where
  lddRun := fun _ => some lddDynOutput
  sharunPath := some "/usr/bin/sharun"
  stripPath := none
  stripRunOk := fun _ => true
  stripFn := fun c => c
  fList := fun _ => .ok []

/-- Initial filesystem for the launcher-copy-count scenario. -/
def twoDynSt (cb1 cb2 cs : List Nat) : St where
  fs := [("/x/b1", .file cb1 0o755), ("/x/b2", .file cb2 0o755),
         ("/usr/bin/sharun", .file cs 0o755)]
  ops := []
  stdout := []

/-- Environment for the partial-batch scenario: `/x/c` is dynamic with a
two-library closure, everything else static. -/
def partialEnv : Env where
  lddRun := fun p => if p = "/x/c" then some lddDynOutput else some lddStaticOutput
  sharunPath := some "/usr/bin/sharun"
  stripPath := none
  stripRunOk := fun _ => true
  stripFn := fun c => c
  fList := fun p =>
    if p = "/x/c" then .ok ["/l/libfoo.so", "/l/ld-linux.so.2"] else .error "unresolved"

/-- Initial filesystem for the partial-batch scenario: static `a`, dynamic `c`
with its two libraries, the launcher, and no `/x/x`. -/
def partialSt (ca cc cl1 cl2 cs : List Nat) : St where
  fs := [("/x/a", .file ca 0o755), ("/x/c", .file cc 0o755),
         ("/l/libfoo.so", .file cl1 0o644), ("/l/ld-linux.so.2", .file cl2 0o644),
         ("/usr/bin/sharun", .file cs 0o755)]
  ops := []
  stdout := []

/-- Number of bindings in the filesystem at exactly key `k`. -/
def countKey (fs : FS) (k : String) : Nat :=
  (fs.filter (fun kv => kv.1 = k)).length

/-! Key equations: the full outcome of each scenario batch, each computed once
by reflexivity and reused by the claim theorems below. -/

set_option maxHeartbeats 16000000 in
/-- Full outcome of the deduplication scenario batch. -/
theorem dedupKey (c1 c2 : List Nat) :
    runMain defaultConfig dedupEnv (dedupSt c1 c2) ["/x/b1", "/x/b2"]
      = { st :=
            { fs := [("/x/b1", .file [10] 0o755), ("/x/b2", .file [11] 0o755),
                     ("/a/libc.so.6", .file c1 0o644), ("/b/libc.so.6", .file c2 0o644),
                     ("/usr/bin/sharun", .file [9] 0o755),
                     ("output", .dir), ("output/sharun", .file [9] 0o755),
                     ("output/bin", .dir), ("output/bin/b1", .symlink "../sharun"),
                     ("output/shared/bin", .dir), ("output/shared/lib", .dir),
                     ("output/shared/bin/b1", .file [10] 0o644),
                     ("output/shared/lib/libc.so.6", .file c2 0o644),
                     ("output/bin/b2", .symlink "../sharun"),
                     ("output/shared/bin/b2", .file [11] 0o644)]
              ops := [.mkdir "output", .copy "/usr/bin/sharun" "output/sharun",
                      .chmod "output/sharun" 0o755, .mkdir "output/bin",
                      .symlink "../sharun" "output/bin/b1", .mkdir "output/shared/bin",
                      .mkdir "output/shared/lib", .copy "/x/b1" "output/shared/bin/b1",
                      .copy "/a/libc.so.6" "output/shared/lib/libc.so.6",
                      .copy "/usr/bin/sharun" "output/sharun", .chmod "output/sharun" 0o755,
                      .symlink "../sharun" "output/bin/b2",
                      .copy "/x/b2" "output/shared/bin/b2",
                      .copy "/b/libc.so.6" "output/shared/lib/libc.so.6"]
              stdout := ["Processed dynamic binary: b1", "Processed dynamic binary: b2"] }
          exitCode := 0
          errorsLogged := [] } := rfl

set_option maxHeartbeats 8000000 in
/-- Full outcome of the launcher-missing scenario batch. -/
theorem noLauncherKey (cd ca : List Nat) :
    runMain defaultConfig noLauncherEnv (noLauncherSt cd ca) ["/x/d1", "/x/a"]
      = { st :=
            { fs := [("/x/d1", .file cd 0o755), ("/x/a", .file ca 0o755),
                     ("output", .dir), ("output/bin", .dir),
                     ("output/bin/a", .file ca 0o755)]
              ops := [.mkdir "output", .mkdir "output/bin", .copy "/x/a" "output/bin/a",
                      .chmod "output/bin/a" 0o755]
              stdout := ["Processed static binary: a"] }
          exitCode := 0
          errorsLogged := [("/x/d1", .sharunNotFound)] } := rfl

set_option maxHeartbeats 16000000 in
/-- Full outcome of the launcher-copy-count scenario batch. -/
theorem twoDynKey (cb1 cb2 cs : List Nat) :
    runMain defaultConfig twoDynEnv (twoDynSt cb1 cb2 cs) ["/x/b1", "/x/b2"]
      = { st :=
            { fs := [("/x/b1", .file cb1 0o755), ("/x/b2", .file cb2 0o755),
                     ("/usr/bin/sharun", .file cs 0o755),
                     ("output", .dir), ("output/sharun", .file cs 0o755),
                     ("output/bin", .dir), ("output/bin/b1", .symlink "../sharun"),
                     ("output/shared/bin", .dir), ("output/shared/lib", .dir),
                     ("output/shared/bin/b1", .file cb1 0o644),
                     ("output/bin/b2", .symlink "../sharun"),
                     ("output/shared/bin/b2", .file cb2 0o644)]
              ops := [.mkdir "output", .copy "/usr/bin/sharun" "output/sharun",
                      .chmod "output/sharun" 0o755, .mkdir "output/bin",
                      .symlink "../sharun" "output/bin/b1", .mkdir "output/shared/bin",
                      .mkdir "output/shared/lib", .copy "/x/b1" "output/shared/bin/b1",
                      .copy "/usr/bin/sharun" "output/sharun", .chmod "output/sharun" 0o755,
                      .symlink "../sharun" "output/bin/b2",
                      .copy "/x/b2" "output/shared/bin/b2"]
              stdout := ["Processed dynamic binary: b1", "Processed dynamic binary: b2"] }
          exitCode := 0
          errorsLogged := [] } := rfl

set_option maxHeartbeats 16000000 in
/-- Full outcome of the partial-batch scenario. -/
theorem partialKey (ca cc cl1 cl2 cs : List Nat) :
    runMain defaultConfig partialEnv (partialSt ca cc cl1 cl2 cs) ["/x/a", "/x/x", "/x/c"]
      = { st :=
            { fs := [("/x/a", .file ca 0o755), ("/x/c", .file cc 0o755),
                     ("/l/libfoo.so", .file cl1 0o644), ("/l/ld-linux.so.2", .file cl2 0o644),
                     ("/usr/bin/sharun", .file cs 0o755),
                     ("output", .dir), ("output/bin", .dir),
                     ("output/bin/a", .file ca 0o755),
                     ("output/sharun", .file cs 0o755),
                     ("output/bin/c", .symlink "../sharun"),
                     ("output/shared/bin", .dir), ("output/shared/lib", .dir),
                     ("output/shared/bin/c", .file cc 0o644),
                     ("output/shared/lib/libfoo.so", .file cl1 0o644),
                     ("output/shared/lib/ld-linux.so.2", .file cl2 0o644)]
              ops := [.mkdir "output", .mkdir "output/bin", .copy "/x/a" "output/bin/a",
                      .chmod "output/bin/a" 0o755, .copy "/usr/bin/sharun" "output/sharun",
                      .chmod "output/sharun" 0o755, .symlink "../sharun" "output/bin/c",
                      .mkdir "output/shared/bin", .mkdir "output/shared/lib",
                      .copy "/x/c" "output/shared/bin/c",
                      .copy "/l/libfoo.so" "output/shared/lib/libfoo.so",
                      .copy "/l/ld-linux.so.2" "output/shared/lib/ld-linux.so.2"]
              stdout := ["Processed static binary: a", "Processed dynamic binary: c"] }
          exitCode := 0
          errorsLogged := [("/x/x", .statError "/x/x")] } := rfl

/-! The claims. -/

/-- Claim C1, amended: when two processed dynamic binaries each resolve a
library with the same base name from different source paths, exactly one file
with that base name exists in `shared/lib/` afterwards, but its contents are
those of the library copied LAST: the second copy overwrites the first (the
code performs no existence check before copying). -/
theorem c1_library_last_writer_wins (c1 c2 : List Nat) :
    countInDirWithBase (runMain defaultConfig dedupEnv (dedupSt c1 c2) ["/x/b1", "/x/b2"]).st.fs
      "output/shared/lib" "libc.so.6" = 1 ∧
    lookupFS (runMain defaultConfig dedupEnv (dedupSt c1 c2) ["/x/b1", "/x/b2"]).st.fs
      "output/shared/lib/libc.so.6" = some (.file c2 0o644) := by
  rw [dedupKey]
  exact ⟨rfl, rfl⟩

/-- Claim C1, counterexample to the claim as stated: with first library
contents `[1]` and second `[2]`, the surviving `shared/lib/libc.so.6` holds
`[2]` — the bytes of the library copied second — not `[1]`, so the later
library is not skipped and does overwrite the earlier copy. -/
theorem c1_counterexample :
    lookupFS (runMain defaultConfig dedupEnv (dedupSt [1] [2]) ["/x/b1", "/x/b2"]).st.fs
      "output/shared/lib/libc.so.6" = some (.file [2] 0o644) ∧
    lookupFS (runMain defaultConfig dedupEnv (dedupSt [1] [2]) ["/x/b1", "/x/b2"]).st.fs
      "output/shared/lib/libc.so.6" ≠ some (.file [1] 0o644) := by
  rw [dedupKey]
  exact ⟨rfl, by decide⟩

/-- Claim C2, amended: the process exit status does not aggregate per-binary
failures.  It is 1 exactly when the argument list is empty, and 0 for every
non-empty batch, even when binaries fail. -/
theorem c2_exit_code_ignores_failures (cfg : Config) (env : Env) (st : St)
    (args : List String) :
    (runMain cfg env st args).exitCode = if args.isEmpty then 1 else 0 := by
  cases args <;> rfl

/-- Claim C2, counterexample to the claim as stated: a batch whose only binary
fails (the input path does not exist) still exits with status 0, so a
per-binary error does not make the exit status non-zero. -/
theorem c2_counterexample :
    (runMain defaultConfig noLauncherEnv stEmpty ["/x/missing"]).errorsLogged ≠ [] ∧
    (runMain defaultConfig noLauncherEnv stEmpty ["/x/missing"]).exitCode = 0 := by
  exact ⟨by decide, rfl⟩

/-- Claim C3, amended: a missing launcher fails only the dynamic binary that
needed it — the error is logged for that binary and the batch continues, fully
processing subsequent binaries (the later static binary is installed and
reported). -/
theorem c3_launcher_missing_binary_fatal (cd ca : List Nat) :
    (runMain defaultConfig noLauncherEnv (noLauncherSt cd ca) ["/x/d1", "/x/a"]).errorsLogged
      = [("/x/d1", .sharunNotFound)] ∧
    lookupFS (runMain defaultConfig noLauncherEnv (noLauncherSt cd ca)
        ["/x/d1", "/x/a"]).st.fs "output/bin/a" = some (.file ca 0o755) ∧
    (runMain defaultConfig noLauncherEnv (noLauncherSt cd ca) ["/x/d1", "/x/a"]).st.stdout
      = ["Processed static binary: a"] := by
  rw [noLauncherKey]
  exact ⟨rfl, rfl, rfl⟩

/-- Claim C3, counterexample to the claim as stated: the first (dynamic)
binary hits the missing-launcher error, yet the later binary IS processed —
`output/bin/a` exists afterwards — so the batch does not abort. -/
theorem c3_counterexample :
    (runMain defaultConfig noLauncherEnv (noLauncherSt [3] [5]) ["/x/d1", "/x/a"]).errorsLogged
      = [("/x/d1", .sharunNotFound)] ∧
    lookupFS (runMain defaultConfig noLauncherEnv (noLauncherSt [3] [5])
        ["/x/d1", "/x/a"]).st.fs "output/bin/a" = some (.file [5] 0o755) := by
  rw [noLauncherKey]
  exact ⟨rfl, rfl⟩

/-- Claim C4, amended: the launcher copy operation is performed once per
dynamic binary, not once per batch: with two dynamic binaries the copy to the
output root happens twice, each overwriting the same path, so exactly one
launcher file exists there afterwards. -/
theorem c4_launcher_copied_per_binary (cb1 cb2 cs : List Nat) :
    countCopiesTo (runMain defaultConfig twoDynEnv (twoDynSt cb1 cb2 cs)
        ["/x/b1", "/x/b2"]).st.ops "output/sharun" = 2 ∧
    countKey (runMain defaultConfig twoDynEnv (twoDynSt cb1 cb2 cs)
        ["/x/b1", "/x/b2"]).st.fs "output/sharun" = 1 ∧
    lookupFS (runMain defaultConfig twoDynEnv (twoDynSt cb1 cb2 cs)
        ["/x/b1", "/x/b2"]).st.fs "output/sharun" = some (.file cs 0o755) := by
  rw [twoDynKey]
  exact ⟨rfl, rfl, rfl⟩

/-- Claim C4, counterexample to the claim as stated: in a batch of two dynamic
binaries the copy of the launcher into the output root is performed twice, not
once (the copy is not restricted to the first dynamic binary). -/
theorem c4_counterexample :
    countCopiesTo (runMain defaultConfig twoDynEnv (twoDynSt [1] [2] [9])
        ["/x/b1", "/x/b2"]).st.ops "output/sharun" = 2 ∧ (2 : Nat) ≠ 1 := by
  rw [twoDynKey]
  exact ⟨rfl, by decide⟩

set_option maxHeartbeats 16000000 in
/-- Claim C8: a failure while processing one binary (here the nonexistent
middle input) leaves the outputs of the already-processed binary untouched,
does not prevent the later dynamic binary from being fully processed, and is
the only failure reported: with inputs static `a`, missing `x`, dynamic `c`,
the batch installs `bin/a`, the symlink `bin/c`, the launcher, `shared/bin/c`
and the full closure of `c`, logs exactly the stat error for `x`, and the
failing call itself returns the state unchanged. -/
theorem c8_partial_batch (ca cc cl1 cl2 cs : List Nat) :
    (runMain defaultConfig partialEnv (partialSt ca cc cl1 cl2 cs)
        ["/x/a", "/x/x", "/x/c"]).errorsLogged = [("/x/x", .statError "/x/x")] ∧
    lookupFS (runMain defaultConfig partialEnv (partialSt ca cc cl1 cl2 cs)
        ["/x/a", "/x/x", "/x/c"]).st.fs "output/bin/a" = some (.file ca 0o755) ∧
    lookupFS (runMain defaultConfig partialEnv (partialSt ca cc cl1 cl2 cs)
        ["/x/a", "/x/x", "/x/c"]).st.fs "output/bin/c" = some (.symlink "../sharun") ∧
    lookupFS (runMain defaultConfig partialEnv (partialSt ca cc cl1 cl2 cs)
        ["/x/a", "/x/x", "/x/c"]).st.fs "output/sharun" = some (.file cs 0o755) ∧
    lookupFS (runMain defaultConfig partialEnv (partialSt ca cc cl1 cl2 cs)
        ["/x/a", "/x/x", "/x/c"]).st.fs "output/shared/bin/c" = some (.file cc 0o644) ∧
    lookupFS (runMain defaultConfig partialEnv (partialSt ca cc cl1 cl2 cs)
        ["/x/a", "/x/x", "/x/c"]).st.fs "output/shared/lib/libfoo.so"
      = some (.file cl1 0o644) ∧
    lookupFS (runMain defaultConfig partialEnv (partialSt ca cc cl1 cl2 cs)
        ["/x/a", "/x/x", "/x/c"]).st.fs "output/shared/lib/ld-linux.so.2"
      = some (.file cl2 0o644) ∧
    (runMain defaultConfig partialEnv (partialSt ca cc cl1 cl2 cs)
        ["/x/a", "/x/x", "/x/c"]).st.stdout
      = ["Processed static binary: a", "Processed dynamic binary: c"] ∧
    processBinary defaultConfig partialEnv
        (processBinary defaultConfig partialEnv (partialSt ca cc cl1 cl2 cs) "/x/a").1 "/x/x"
      = ((processBinary defaultConfig partialEnv (partialSt ca cc cl1 cl2 cs) "/x/a").1,
         some (.statError "/x/x")) := by
  rw [partialKey]
  refine ⟨rfl, rfl, rfl, rfl, rfl, rfl, rfl, rfl, ?_⟩
  rfl

/-- Claim C9: with no positional arguments the program prints the usage error
and exits with status 1, performing no filesystem mutation (the filesystem and
the operation trace are unchanged) and logging no per-binary error. -/
theorem c9_empty_args (cfg : Config) (env : Env) (st : St) :
    (runMain cfg env st []).exitCode = 1 ∧
    (runMain cfg env st []).st.fs = st.fs ∧
    (runMain cfg env st []).st.ops = st.ops ∧
    (runMain cfg env st []).st.stdout
      = st.stdout ++ ["Error: Specify the ELF binary executable!"] ∧
    (runMain cfg env st []).errorsLogged = [] :=
  ⟨rfl, rfl, rfl, rfl, rfl⟩

/-! Fixtures for the witnesses of the universally quantified claims. -/

/-- Environment whose prober reports every binary static. -/
def staticEnv : Env where
  lddRun := fun _ => some lddStaticOutput
  sharunPath := none
  stripPath := none
  stripRunOk := fun _ => true
  stripFn := fun c => c
  fList := fun _ => .error "unresolved"

/-- Environment whose prober fails to run on every input (missing tool,
unreadable file, non-ELF input). -/
def proberFailEnv : Env where
  lddRun := fun _ => none
  sharunPath := none
  stripPath := none
  stripRunOk := fun _ => true
  stripFn := fun c => c
  fList := fun _ => .error "unresolved"

/-- A state with one static binary and a pre-existing file at its `bin/`
destination (to be overwritten). -/
def staticWitSt : St where
  fs := [("/x/a", .file [1, 2] 0o700), ("output/bin/a", .file [9] 0o600)]
  ops := []
  stdout := []

/-- Environment for the dynamic witnesses: everything dynamic, the launcher on
the search path, one single-library closure. -/
def dynWitEnv : Env where
  lddRun := fun _ => some lddDynOutput
  sharunPath := some "/usr/bin/sharun"
  stripPath := none
  stripRunOk := fun _ => true
  stripFn := fun c => c
  fList := fun _ => .ok ["/l/libz.so.1"]

/-- A state with one dynamic binary, the launcher, its library, and a
pre-existing regular file at the symlink destination `bin/b`. -/
def symlinkClashSt : St where
  fs := [("/x/b", .file [4] 0o755), ("/usr/bin/sharun", .file [9] 0o755),
         ("/l/libz.so.1", .file [7] 0o644), ("output/bin/b", .file [5] 0o644)]
  ops := []
  stdout := []

/-- A state with one dynamic binary, the launcher and its library, and a fresh
output tree. -/
def dynWitSt : St where
  fs := [("/x/b", .file [4] 0o755), ("/usr/bin/sharun", .file [9] 0o755),
         ("/l/libz.so.1", .file [7] 0o644)]
  ops := []
  stdout := []

/-! The remaining claims. -/

/-- Claim C5: a static input binary processed with stripping disabled ends up
at `bin/<base>` byte-identical to the input, any pre-existing regular file
there is overwritten, and the installed file's permission bits are `0755`
(read and execute for owner, group and other plus write for owner). -/
theorem c5_static_install (cfg : Config) (env : Env) (st : St) (p : String)
    (c : List Nat) (m : Nat)
    (hstrip : cfg.strip = false)
    (hdst : cfg.dstDirPath = defaultDstDir)
    (hreg : lookupFS st.fs p = some (.file c m))
    (hclass : isDynamicExecutable env p = false)
    (hroot : dirOkB (lookupFS st.fs "output") = true)
    (hbin : dirOkB (lookupFS st.fs "output/bin") = true)
    (htgt : writableB (lookupFS st.fs ("output/bin" ++ "/" ++ baseName p)) = true) :
    (processBinary cfg env st p).2 = none ∧
    lookupFS (processBinary cfg env st p).1.fs
      ("output/bin" ++ "/" ++ baseName p) = some (.file c 0o755) :=
  processBinary_static_ok cfg env st p c m hstrip hdst hreg hclass hroot hbin htgt

/-- Claim C5 witness: the concrete static binary `/x/a` with contents `[1,2]`
is installed over the pre-existing `output/bin/a` (old contents `[9]`, old
mode `0600`), ending byte-identical to the input with mode `0755`. -/
theorem c5_static_install_witness :
    (processBinary defaultConfig staticEnv staticWitSt "/x/a").2 = none ∧
    lookupFS (processBinary defaultConfig staticEnv staticWitSt "/x/a").1.fs
      ("output/bin" ++ "/" ++ baseName "/x/a") = some (.file [1, 2] 0o755) :=
  c5_static_install defaultConfig staticEnv staticWitSt "/x/a" [1, 2] 0o700
    rfl rfl rfl (by decide) (by decide) (by decide) (by decide)

/-- Claim C6: when the linkage prober fails to run on an input, the classifier
returns static (not an error), and the binary is fed into the static
installation path: processing succeeds and installs `bin/<base>`. -/
theorem c6_prober_failure_static (cfg : Config) (env : Env) (st : St) (p : String)
    (c : List Nat) (m : Nat)
    (hfail : env.lddRun p = none)
    (hstrip : cfg.strip = false)
    (hdst : cfg.dstDirPath = defaultDstDir)
    (hreg : lookupFS st.fs p = some (.file c m))
    (hroot : dirOkB (lookupFS st.fs "output") = true)
    (hbin : dirOkB (lookupFS st.fs "output/bin") = true)
    (htgt : writableB (lookupFS st.fs ("output/bin" ++ "/" ++ baseName p)) = true) :
    isDynamicExecutable env p = false ∧
    (processBinary cfg env st p).2 = none ∧
    lookupFS (processBinary cfg env st p).1.fs
      ("output/bin" ++ "/" ++ baseName p) = some (.file c 0o755) := by
  have hclass : isDynamicExecutable env p = false := by
    simp [isDynamicExecutable, hfail]
  obtain ⟨h1, h2⟩ := processBinary_static_ok cfg env st p c m hstrip hdst hreg hclass
    hroot hbin htgt
  exact ⟨hclass, h1, h2⟩

/-- Claim C6 witness: with a prober that fails on every input, the concrete
binary `/x/a` is classified static and installed at `output/bin/a`. -/
theorem c6_prober_failure_static_witness :
    isDynamicExecutable proberFailEnv "/x/a" = false ∧
    (processBinary defaultConfig proberFailEnv staticWitSt "/x/a").2 = none ∧
    lookupFS (processBinary defaultConfig proberFailEnv staticWitSt "/x/a").1.fs
      ("output/bin" ++ "/" ++ baseName "/x/a") = some (.file [1, 2] 0o755) :=
  c6_prober_failure_static defaultConfig proberFailEnv staticWitSt "/x/a" [1, 2] 0o700
    rfl rfl rfl rfl (by decide) (by decide) (by decide)

/-- Unfolding of `processBinary` on a dynamically-classified regular file once
the launcher was located: after the root directory step it is exactly the
dynamic branch. -/
theorem processBinary_dynamic_unfold (cfg : Config) (env : Env) (st : St)
    (p sp : String) (c : List Nat) (m : Nat)
    (hdst : cfg.dstDirPath = defaultDstDir)
    (hreg : lookupFS st.fs p = some (.file c m))
    (hclass : isDynamicExecutable env p = true)
    (hsharun : env.sharunPath = some sp)
    (hroot : dirOkB (lookupFS st.fs "output") = true) :
    processBinary cfg env st p
      = processDynamicTail cfg env (mkdirAll st "output").1 p (baseName p) sp := by
  unfold processBinary
  rw [hreg]
  simp only [hdst, show (defaultDstDir : String) = "output" from rfl]
  obtain ⟨m1e, _, _, _, _⟩ := mkdirAll_ok hroot
  rw [step_ok _ m1e]
  rw [hclass]
  simp only [Bool.not_true, Bool.false_eq_true, if_false]
  simp only [findDynExec, hsharun]

/-- Claim C7: when a regular file already exists at `bin/<base>` for a dynamic
binary, the symlink step fails with an I/O error (`os.Symlink` refuses to
overwrite) and the pre-existing file is left unchanged — in contrast with the
static install path, which overwrites its destination. -/
theorem c7_symlink_no_overwrite (cfg : Config) (env : Env) (st : St)
    (p sp : String) (c : List Nat) (m : Nat) (cs : List Nat) (ms : Nat)
    (c0 : List Nat) (m0 : Nat)
    (hdst : cfg.dstDirPath = defaultDstDir)
    (hlinks : cfg.createLinks = true)
    (hreg : lookupFS st.fs p = some (.file c m))
    (hclass : isDynamicExecutable env p = true)
    (hsharun : env.sharunPath = some sp)
    (hsp : lookupFS st.fs sp = some (.file cs ms))
    (hroot : dirOkB (lookupFS st.fs "output") = true)
    (hshn : writableB (lookupFS st.fs "output/sharun") = true)
    (hbin : dirOkB (lookupFS st.fs "output/bin") = true)
    (hslp : lookupFS st.fs ("output/bin" ++ "/" ++ baseName p) = some (.file c0 m0)) :
    (processBinary cfg env st p).2
      = some (.symlinkError ("output/bin" ++ "/" ++ baseName p)) ∧
    lookupFS (processBinary cfg env st p).1.fs
      ("output/bin" ++ "/" ++ baseName p) = some (.file c0 m0) := by
  rw [processBinary_dynamic_unfold cfg env st p sp c m hdst hreg hclass hsharun hroot]
  have dPR : p ≠ "output" := by
    intro h; rw [h] at hreg; rw [hreg] at hroot; simp [dirOkB] at hroot
  have dSpR : sp ≠ "output" := by
    intro h; rw [h] at hsp; rw [hsp] at hroot; simp [dirOkB] at hroot
  obtain ⟨_, _, m1p, _, _⟩ := mkdirAll_ok hroot
  exact processDynamicTail_symlinkExists cfg env (mkdirAll st "output").1 p sp cs ms c0 m0
    hdst hlinks
    (by rw [m1p _ dSpR]; exact hsp)
    (by rw [m1p _ (by decide)]; exact hshn)
    (by rw [m1p _ (by decide)]; exact hbin)
    (by rw [m1p ("output/bin" ++ "/" ++ baseName p) (of_decide_eq_true rfl)]; exact hslp)

/-- Claim C7 witness: the concrete dynamic binary `/x/b` with a pre-existing
regular file at `output/bin/b` (contents `[5]`, mode `0644`) fails with the
symlink error and leaves that file untouched. -/
theorem c7_symlink_no_overwrite_witness :
    (processBinary defaultConfig dynWitEnv symlinkClashSt "/x/b").2
      = some (.symlinkError ("output/bin" ++ "/" ++ baseName "/x/b")) ∧
    lookupFS (processBinary defaultConfig dynWitEnv symlinkClashSt "/x/b").1.fs
      ("output/bin" ++ "/" ++ baseName "/x/b") = some (.file [5] 0o644) :=
  c7_symlink_no_overwrite defaultConfig dynWitEnv symlinkClashSt "/x/b" "/usr/bin/sharun"
    [4] 0o755 [9] 0o755 [5] 0o644
    rfl rfl rfl (by decide) rfl rfl (by decide) (by decide) (by decide) (by decide)

/-- Claim C10: the copy of a dynamic binary placed in `shared/bin/` is created
with mode `0644` and no chmod is ever applied to it, while the launcher copy
at the output root is chmod'd to `0755` — so the `shared/bin` copy carries no
execute permission bits, unlike the launcher (and the static copies). -/
theorem c10_sharedbin_mode (cfg : Config) (env : Env) (st : St)
    (p sp : String) (c : List Nat) (m : Nat) (cs : List Nat) (ms : Nat)
    (hdst : cfg.dstDirPath = defaultDstDir)
    (hstrip : cfg.strip = false)
    (hlinks : cfg.createLinks = true)
    (hreg : lookupFS st.fs p = some (.file c m))
    (hclass : isDynamicExecutable env p = true)
    (hsharun : env.sharunPath = some sp)
    (hsp : lookupFS st.fs sp = some (.file cs ms))
    (hroot : dirOkB (lookupFS st.fs "output") = true)
    (hshn : writableB (lookupFS st.fs "output/sharun") = true)
    (hpshn : p ≠ "output/sharun")
    (hbin : dirOkB (lookupFS st.fs "output/bin") = true)
    (hslp : lookupFS st.fs ("output/bin" ++ "/" ++ baseName p) = none)
    (hsbd : dirOkB (lookupFS st.fs "output/shared/bin") = true)
    (hsld : dirOkB (lookupFS st.fs "output/shared/lib") = true)
    (hsbp : lookupFS st.fs ("output/shared/bin" ++ "/" ++ baseName p) = none)
    (hops : st.ops = []) :
    lookupFS (processBinary cfg env st p).1.fs
      ("output/shared/bin" ++ "/" ++ baseName p) = some (.file c 0o644) ∧
    (∀ b, Op.chmod ("output/shared/bin" ++ "/" ++ baseName p) b
      ∉ (processBinary cfg env st p).1.ops) ∧
    lookupFS (processBinary cfg env st p).1.fs "output/sharun"
      = some (.file cs 0o755) := by
  rw [processBinary_dynamic_unfold cfg env st p sp c m hdst hreg hclass hsharun hroot]
  have dPR : p ≠ "output" := by
    intro h; rw [h] at hreg; rw [hreg] at hroot; simp [dirOkB] at hroot
  have dSpR : sp ≠ "output" := by
    intro h; rw [h] at hsp; rw [hsp] at hroot; simp [dirOkB] at hroot
  obtain ⟨_, _, m1p, _, m1o⟩ := mkdirAll_ok hroot
  obtain ⟨g1, g2, g3⟩ := processDynamicTail_sharedBin cfg env (mkdirAll st "output").1 p sp
    c m cs ms hdst hstrip hlinks
    (by rw [m1p _ dPR]; exact hreg)
    (by rw [m1p _ dSpR]; exact hsp)
    (by rw [m1p _ (by decide)]; exact hshn)
    hpshn
    (by rw [m1p _ (by decide)]; exact hbin)
    (by rw [m1p ("output/bin" ++ "/" ++ baseName p) (of_decide_eq_true rfl)]; exact hslp)
    (by rw [m1p _ (by decide)]; exact hsbd)
    (by rw [m1p _ (by decide)]; exact hsld)
    (by rw [m1p ("output/shared/bin" ++ "/" ++ baseName p) (of_decide_eq_true rfl)]; exact hsbp)
  refine ⟨g1, ?_, g3⟩
  intro b hb
  have h2 := m1o _ _ (g2 b hb)
  rw [hops] at h2
  simp at h2

/-- Claim C10 witness: the concrete dynamic binary `/x/b` ends up at
`output/shared/bin/b` with contents `[4]` and mode `0644`, no chmod ever
targets that path, and the launcher copy ends at `output/sharun` with mode
`0755`. -/
theorem c10_sharedbin_mode_witness :
    lookupFS (processBinary defaultConfig dynWitEnv dynWitSt "/x/b").1.fs
      ("output/shared/bin" ++ "/" ++ baseName "/x/b") = some (.file [4] 0o644) ∧
    (∀ b, Op.chmod ("output/shared/bin" ++ "/" ++ baseName "/x/b") b
      ∉ (processBinary defaultConfig dynWitEnv dynWitSt "/x/b").1.ops) ∧
    lookupFS (processBinary defaultConfig dynWitEnv dynWitSt "/x/b").1.fs "output/sharun"
      = some (.file [9] 0o755) :=
  c10_sharedbin_mode defaultConfig dynWitEnv dynWitSt "/x/b" "/usr/bin/sharun"
    [4] 0o755 [9] 0o755
    rfl rfl rfl (by decide) rfl rfl (by decide) (by decide) (by decide) (by decide)
    (by decide) (by decide) (by decide) (by decide) (by decide) rfl

end Pelf
